import Mathlib

/-!
Shallow embedding of `src/main.rs` of the `nested_newtypes` repository.

The Rust program stacks three independent decorator types — `Usage<U, T>`
(a phantom type tag), `ChangedWrap<T>` (a boolean flag), `LabelWrap<T>`
(a string label) — around a payload in any order.  Rust traits become Lean
type classes; each Rust `impl` becomes an instance.  `&mut self` setters are
modelled by state passing (`Self → ... → Self`), `Cow<'static, str>` by
`String`, `std::any::TypeId` by an abstract token type, and Rust's
auto-deref method resolution by lifted accessor classes that dereference one
level at a time until the owning layer is reached.
-/

namespace NestedNewtypes

/-- `struct Z;` — the type-level Peano zero. -/
structure Z

/-- `struct S<T>(PhantomData<T>);` — the type-level Peano successor; its only
content is the zero-sized phantom, carried here by the type parameter. -/
structure S (T : Type)

/-- Token standing for a `std::any::TypeId` value. -/
structure TypeId where
  name : String

/-- `std::any::TypeId::of::<U>()` as a class: a type with an instance has a
static identifier. -/
class TypeIdOf (U : Type) where
  of : TypeId

/-- `enum UsageTag {}` — an uninhabited tag type, used only at the type level. -/
inductive UsageTag : Type

instance : TypeIdOf UsageTag where
  of := ⟨"nested_newtypes::UsageTag"⟩

/-- `std::ops::Deref`: `deref(&self) -> &Target` yields a read-only view of the
immediate inner value; in this value-level embedding it is a pure projection. -/
class Deref (Self : Type) (Target : outParam Type) where
  deref : Self → Target

/-- `struct Usage<U, T> { data: T, _phantom: PhantomData<U> }`; the zero-sized
`PhantomData<U>` field is carried by the type parameter `U` alone. -/
structure Usage (U : Type) (T : Type) where
  data : T

/-- `Usage::new(data)` — wraps `data`, phantom defaulted. -/
def Usage.new {U T : Type} (data : T) : Usage U T :=
  ⟨data⟩

instance {U T : Type} : Deref (Usage U T) T where
  deref s := s.data

/-- `trait UsageTrait { type Usage; fn type_id(&self) -> TypeId }`: the
associated type is the out-param `U`; the default method body
`TypeId::of::<Self::Usage>()` is the body of the single instance below. -/
class UsageTrait (Self : Type) (U : outParam Type) where
  type_id : Self → TypeId

instance {U T : Type} [TypeIdOf U] : UsageTrait (Usage U T) U where
  type_id _ := @TypeIdOf.of U _

/-- `struct ChangedWrap<T> { data: T, changed: bool }` -/
structure ChangedWrap (T : Type) where
  data : T
  changed : Bool

/-- `ChangedWrap::new(data)` — wraps `data` with `changed: false`. -/
def ChangedWrap.new {T : Type} (data : T) : ChangedWrap T :=
  ⟨data, false⟩

instance {T : Type} : Deref (ChangedWrap T) T where
  deref s := s.data

/-- `struct Changed(pub bool)` — the builder configuration for the flag. -/
structure Changed where
  val : Bool

/-- `trait ChangedFlagTrait<T>` (the unused parameter `T` is dropped).
`set_changed(&mut self, ...)` is modelled by returning the updated value. -/
class ChangedFlagTrait (Self : Type) where
  get_changed : Self → Bool
  set_changed : Self → Bool → Self

instance {T : Type} : ChangedFlagTrait (ChangedWrap T) where
  get_changed s := s.changed
  set_changed s b := { s with changed := b }

/-- `struct LabelWrap<T> { data: T, label: Cow<'static, str> }` -/
structure LabelWrap (T : Type) where
  data : T
  label : String

/-- `LabelWrap::new(data)` — wraps `data` with `label: ""`. -/
def LabelWrap.new {T : Type} (data : T) : LabelWrap T :=
  ⟨data, ""⟩

instance {T : Type} : Deref (LabelWrap T) T where
  deref s := s.data

/-- `struct Label<T>(T) where T: Into<Cow<'static, str>>` — modelled after the
`Into` conversion, i.e. carrying the converted string. -/
structure Label where
  val : String

/-- `trait LabelTrait<T>` (the unused parameter `T` is dropped). -/
class LabelTrait (Self : Type) where
  get_label : Self → String
  set_label : Self → String → Self

instance {T : Type} : LabelTrait (LabelWrap T) where
  get_label s := s.label
  set_label s l := { s with label := l }

/-- Rust auto-deref method resolution for `get_changed`: the call site
dereferences one level at a time until it reaches the layer implementing
`ChangedFlagTrait` (the direct, higher-priority instance). -/
class GetChanged (Self : Type) where
  get_changed : Self → Bool

instance (priority := 50) {Self T : Type} [Deref Self T] [GetChanged T] :
    GetChanged Self where
  get_changed s := GetChanged.get_changed (Deref.deref s)

instance (priority := 100) {T : Type} : GetChanged (ChangedWrap T) where
  get_changed s := ChangedFlagTrait.get_changed s

/-- Rust auto-deref method resolution for `get_label`. -/
class GetLabel (Self : Type) where
  get_label : Self → String

instance (priority := 50) {Self T : Type} [Deref Self T] [GetLabel T] :
    GetLabel Self where
  get_label s := GetLabel.get_label (Deref.deref s)

instance (priority := 100) {T : Type} : GetLabel (LabelWrap T) where
  get_label s := LabelTrait.get_label s

/-- Rust auto-deref method resolution for `type_id`. -/
class GetTypeId (Self : Type) where
  type_id : Self → TypeId

instance (priority := 50) {Self T : Type} [Deref Self T] [GetTypeId T] :
    GetTypeId Self where
  type_id s := GetTypeId.type_id (Deref.deref s)

instance (priority := 100) {Self U : Type} [UsageTrait Self U] :
    GetTypeId Self where
  type_id s := UsageTrait.type_id s

/-- `trait Construct<T, I> { fn construct(t: T) -> Self; }` -/
class Construct (T : Type) (I : Type) (Self : Type) where
  construct : T → Self

instance {T U : Type} : Construct T Z (Usage U T) where
  construct t := Usage.new t

instance {T I U N : Type} [Construct T I N] : Construct T (S I) (Usage U N) where
  construct t := Usage.new (@Construct.construct T I N _ t)

instance {T : Type} : Construct T Z (LabelWrap T) where
  construct t := LabelWrap.new t

instance {T I N : Type} [Construct T I N] : Construct T (S I) (LabelWrap N) where
  construct t := LabelWrap.new (@Construct.construct T I N _ t)

instance {T : Type} : Construct T Z (ChangedWrap T) where
  construct t := ChangedWrap.new t

instance {T I N : Type} [Construct T I N] : Construct T (S I) (ChangedWrap N) where
  construct t := ChangedWrap.new (@Construct.construct T I N _ t)

/-- `trait With<T, I> { fn with(self, t: T) -> Self; }` — `with` is a Lean
keyword, hence the method is named `wth`. -/
class With (T : Type) (I : Type) (Self : Type) where
  wth : Self → T → Self

instance {T : Type} : With Changed Z (ChangedWrap T) where
  wth s t := ChangedFlagTrait.set_changed s t.val

instance {T I N : Type} [With T I N] : With T (S I) (ChangedWrap N) where
  wth s t := { s with data := @With.wth T I N _ s.data t }

instance {T : Type} : With Label Z (LabelWrap T) where
  wth s t := LabelTrait.set_label s t.val

instance {T I N : Type} [With T I N] : With T (S I) (LabelWrap N) where
  wth s t := { s with data := @With.wth T I N _ s.data t }

instance {T I U N : Type} [With T I N] : With T (S I) (Usage U N) where
  wth s t := { s with data := @With.wth T I N _ s.data t }

/-- Runtime measure of a type-level Peano index: `S^k Z` has depth `k`. -/
class IndexDepth (I : Type) where
  depth : Nat

instance : IndexDepth Z where
  depth := 0

instance {I : Type} [IndexDepth I] : IndexDepth (S I) where
  depth := @IndexDepth.depth I _ + 1

/-! The six permutation stack types from `test_the_second`, and the
monomorphised `construct` / `with` calls rustc resolves on each of them
(each `with` index is the one Rust trait resolution infers: the number of
layers above the unique owner of the capability). -/

/-- `type One<T> = Usage<UsageTag, ChangedWrap<LabelWrap<T>>>` -/
abbrev One (T : Type) : Type :=
  Usage UsageTag (ChangedWrap (LabelWrap T))

/-- `type Two<T> = Usage<UsageTag, LabelWrap<ChangedWrap<T>>>` -/
abbrev Two (T : Type) : Type :=
  Usage UsageTag (LabelWrap (ChangedWrap T))

/-- `type Three<T> = ChangedWrap<Usage<UsageTag, LabelWrap<T>>>` -/
abbrev Three (T : Type) : Type :=
  ChangedWrap (Usage UsageTag (LabelWrap T))

/-- `type Four<T> = ChangedWrap<LabelWrap<Usage<UsageTag, T>>>` -/
abbrev Four (T : Type) : Type :=
  ChangedWrap (LabelWrap (Usage UsageTag T))

/-- `type Five<T> = LabelWrap<Usage<UsageTag, ChangedWrap<T>>>` -/
abbrev Five (T : Type) : Type :=
  LabelWrap (Usage UsageTag (ChangedWrap T))

/-- `type Six<T> = LabelWrap<ChangedWrap<Usage<UsageTag, T>>>` -/
abbrev Six (T : Type) : Type :=
  LabelWrap (ChangedWrap (Usage UsageTag T))

def One.construct {α : Type} (v : α) : One α :=
  @Construct.construct α (S (S Z)) (One α) _ v

def One.withChanged {α : Type} (s : One α) (c : Changed) : One α :=
  @With.wth Changed (S Z) (One α) _ s c

def One.withLabel {α : Type} (s : One α) (l : Label) : One α :=
  @With.wth Label (S (S Z)) (One α) _ s l

def Two.construct {α : Type} (v : α) : Two α :=
  @Construct.construct α (S (S Z)) (Two α) _ v

def Two.withChanged {α : Type} (s : Two α) (c : Changed) : Two α :=
  @With.wth Changed (S (S Z)) (Two α) _ s c

def Two.withLabel {α : Type} (s : Two α) (l : Label) : Two α :=
  @With.wth Label (S Z) (Two α) _ s l

def Three.construct {α : Type} (v : α) : Three α :=
  @Construct.construct α (S (S Z)) (Three α) _ v

def Three.withChanged {α : Type} (s : Three α) (c : Changed) : Three α :=
  @With.wth Changed Z (Three α) _ s c

def Three.withLabel {α : Type} (s : Three α) (l : Label) : Three α :=
  @With.wth Label (S (S Z)) (Three α) _ s l

def Four.construct {α : Type} (v : α) : Four α :=
  @Construct.construct α (S (S Z)) (Four α) _ v

def Four.withChanged {α : Type} (s : Four α) (c : Changed) : Four α :=
  @With.wth Changed Z (Four α) _ s c

def Four.withLabel {α : Type} (s : Four α) (l : Label) : Four α :=
  @With.wth Label (S Z) (Four α) _ s l

def Five.construct {α : Type} (v : α) : Five α :=
  @Construct.construct α (S (S Z)) (Five α) _ v

def Five.withChanged {α : Type} (s : Five α) (c : Changed) : Five α :=
  @With.wth Changed (S (S Z)) (Five α) _ s c

def Five.withLabel {α : Type} (s : Five α) (l : Label) : Five α :=
  @With.wth Label Z (Five α) _ s l

def Six.construct {α : Type} (v : α) : Six α :=
  @Construct.construct α (S (S Z)) (Six α) _ v

def Six.withChanged {α : Type} (s : Six α) (c : Changed) : Six α :=
  @With.wth Changed (S Z) (Six α) _ s c

def Six.withLabel {α : Type} (s : Six α) (l : Label) : Six α :=
  @With.wth Label Z (Six α) _ s l

/-! The scenario of `test_the_second`, generalised over the payload value and
the capability inputs: construct, set the flag, set the label. -/

def buildOne {α : Type} (v : α) (c : Bool) (l : String) : One α :=
  One.withLabel (One.withChanged (One.construct v) ⟨c⟩) ⟨l⟩

def buildTwo {α : Type} (v : α) (c : Bool) (l : String) : Two α :=
  Two.withLabel (Two.withChanged (Two.construct v) ⟨c⟩) ⟨l⟩

def buildThree {α : Type} (v : α) (c : Bool) (l : String) : Three α :=
  Three.withLabel (Three.withChanged (Three.construct v) ⟨c⟩) ⟨l⟩

def buildFour {α : Type} (v : α) (c : Bool) (l : String) : Four α :=
  Four.withLabel (Four.withChanged (Four.construct v) ⟨c⟩) ⟨l⟩

def buildFive {α : Type} (v : α) (c : Bool) (l : String) : Five α :=
  Five.withLabel (Five.withChanged (Five.construct v) ⟨c⟩) ⟨l⟩

def buildSix {α : Type} (v : α) (c : Bool) (l : String) : Six α :=
  Six.withLabel (Six.withChanged (Six.construct v) ⟨c⟩) ⟨l⟩

/-- Claim C1: for every payload value and every permutation of the three
decorator types {Usage, ChangedWrap, LabelWrap} nested around it, applying the
same capability inputs via `with` (the same Changed flag value and the same
Label value) and then reading each capability (`get_changed`, `get_label`,
`type_id`) yields identical results for every nesting order: the flag reads
back as `c`, the label as `l`, and the type id as the static id of `UsageTag`,
for all six orders. -/
theorem c1_order_independence (α : Type) (v : α) (c : Bool) (l : String) :
    (GetChanged.get_changed (buildOne v c l) = c ∧
      GetLabel.get_label (buildOne v c l) = l ∧
      GetTypeId.type_id (buildOne v c l) = @TypeIdOf.of UsageTag _) ∧
    (GetChanged.get_changed (buildTwo v c l) = c ∧
      GetLabel.get_label (buildTwo v c l) = l ∧
      GetTypeId.type_id (buildTwo v c l) = @TypeIdOf.of UsageTag _) ∧
    (GetChanged.get_changed (buildThree v c l) = c ∧
      GetLabel.get_label (buildThree v c l) = l ∧
      GetTypeId.type_id (buildThree v c l) = @TypeIdOf.of UsageTag _) ∧
    (GetChanged.get_changed (buildFour v c l) = c ∧
      GetLabel.get_label (buildFour v c l) = l ∧
      GetTypeId.type_id (buildFour v c l) = @TypeIdOf.of UsageTag _) ∧
    (GetChanged.get_changed (buildFive v c l) = c ∧
      GetLabel.get_label (buildFive v c l) = l ∧
      GetTypeId.type_id (buildFive v c l) = @TypeIdOf.of UsageTag _) ∧
    (GetChanged.get_changed (buildSix v c l) = c ∧
      GetLabel.get_label (buildSix v c l) = l ∧
      GetTypeId.type_id (buildSix v c l) = @TypeIdOf.of UsageTag _) :=
  ⟨⟨rfl, rfl, rfl⟩, ⟨rfl, rfl, rfl⟩, ⟨rfl, rfl, rfl⟩,
    ⟨rfl, rfl, rfl⟩, ⟨rfl, rfl, rfl⟩, ⟨rfl, rfl, rfl⟩⟩

/-- Claim C2: for every payload value `v` and each of the six stack types with
`v` at depth two, `Construct::<v, S(S(Z))>::construct(v)` is the very value
obtained by manually nesting the corresponding `new` calls in the matching
order (hence the same capability defaults at every layer and the same payload
through the deref chain). -/
theorem c2_construct_matches_manual_nesting (α : Type) (v : α) :
    One.construct v = Usage.new (ChangedWrap.new (LabelWrap.new v)) ∧
    Two.construct v = Usage.new (LabelWrap.new (ChangedWrap.new v)) ∧
    Three.construct v = ChangedWrap.new (Usage.new (LabelWrap.new v)) ∧
    Four.construct v = ChangedWrap.new (LabelWrap.new (Usage.new v)) ∧
    Five.construct v = LabelWrap.new (Usage.new (ChangedWrap.new v)) ∧
    Six.construct v = LabelWrap.new (ChangedWrap.new (Usage.new v)) :=
  ⟨rfl, rfl, rfl, rfl, rfl, rfl⟩

/-- Claim C3: on every one of the six permutations, `with(Label(..))` leaves
`get_changed` and `type_id` unchanged and `with(Changed(..))` leaves
`get_label` and `type_id` unchanged; moreover each recursive `With` impl
rewraps the updated inner value while leaving the current layer's own
capability state untouched (`changed` for `ChangedWrap`, `label` for
`LabelWrap`, and the pure rewrap for `Usage`). -/
theorem c3_non_interference (α : Type) :
    (∀ (s : One α) (l : String),
      GetChanged.get_changed (One.withLabel s ⟨l⟩) = GetChanged.get_changed s ∧
      GetTypeId.type_id (One.withLabel s ⟨l⟩) = GetTypeId.type_id s) ∧
    (∀ (s : One α) (c : Bool),
      GetLabel.get_label (One.withChanged s ⟨c⟩) = GetLabel.get_label s ∧
      GetTypeId.type_id (One.withChanged s ⟨c⟩) = GetTypeId.type_id s) ∧
    (∀ (s : Two α) (l : String),
      GetChanged.get_changed (Two.withLabel s ⟨l⟩) = GetChanged.get_changed s ∧
      GetTypeId.type_id (Two.withLabel s ⟨l⟩) = GetTypeId.type_id s) ∧
    (∀ (s : Two α) (c : Bool),
      GetLabel.get_label (Two.withChanged s ⟨c⟩) = GetLabel.get_label s ∧
      GetTypeId.type_id (Two.withChanged s ⟨c⟩) = GetTypeId.type_id s) ∧
    (∀ (s : Three α) (l : String),
      GetChanged.get_changed (Three.withLabel s ⟨l⟩) = GetChanged.get_changed s ∧
      GetTypeId.type_id (Three.withLabel s ⟨l⟩) = GetTypeId.type_id s) ∧
    (∀ (s : Three α) (c : Bool),
      GetLabel.get_label (Three.withChanged s ⟨c⟩) = GetLabel.get_label s ∧
      GetTypeId.type_id (Three.withChanged s ⟨c⟩) = GetTypeId.type_id s) ∧
    (∀ (s : Four α) (l : String),
      GetChanged.get_changed (Four.withLabel s ⟨l⟩) = GetChanged.get_changed s ∧
      GetTypeId.type_id (Four.withLabel s ⟨l⟩) = GetTypeId.type_id s) ∧
    (∀ (s : Four α) (c : Bool),
      GetLabel.get_label (Four.withChanged s ⟨c⟩) = GetLabel.get_label s ∧
      GetTypeId.type_id (Four.withChanged s ⟨c⟩) = GetTypeId.type_id s) ∧
    (∀ (s : Five α) (l : String),
      GetChanged.get_changed (Five.withLabel s ⟨l⟩) = GetChanged.get_changed s ∧
      GetTypeId.type_id (Five.withLabel s ⟨l⟩) = GetTypeId.type_id s) ∧
    (∀ (s : Five α) (c : Bool),
      GetLabel.get_label (Five.withChanged s ⟨c⟩) = GetLabel.get_label s ∧
      GetTypeId.type_id (Five.withChanged s ⟨c⟩) = GetTypeId.type_id s) ∧
    (∀ (s : Six α) (l : String),
      GetChanged.get_changed (Six.withLabel s ⟨l⟩) = GetChanged.get_changed s ∧
      GetTypeId.type_id (Six.withLabel s ⟨l⟩) = GetTypeId.type_id s) ∧
    (∀ (s : Six α) (c : Bool),
      GetLabel.get_label (Six.withChanged s ⟨c⟩) = GetLabel.get_label s ∧
      GetTypeId.type_id (Six.withChanged s ⟨c⟩) = GetTypeId.type_id s) ∧
    (∀ (T I N : Type) [With T I N] (s : ChangedWrap N) (t : T),
      (@With.wth T (S I) (ChangedWrap N) _ s t).changed = s.changed) ∧
    (∀ (T I N : Type) [With T I N] (s : LabelWrap N) (t : T),
      (@With.wth T (S I) (LabelWrap N) _ s t).label = s.label) ∧
    (∀ (T I U N : Type) [With T I N] (u : Usage U N) (t : T),
      @With.wth T (S I) (Usage U N) _ u t
        = Usage.new (@With.wth T I N _ u.data t)) := by
  refine ⟨?_, ?_, ?_, ?_, ?_, ?_, ?_, ?_, ?_, ?_, ?_, ?_, ?_, ?_, ?_⟩ <;>
    intros <;> first | exact ⟨rfl, rfl⟩ | rfl

/-- Claim C4: for every inner value, a decorator freshly constructed via
direct `new` has the Changed flag equal to `false` (`ChangedWrap::new`), the
Label equal to the empty string (`LabelWrap::new`), and `Usage::new` adds
nothing but the zero-state phantom; in all three cases the inner value is
stored unchanged, before any `with` call. -/
theorem c4_new_defaults (α U : Type) (d : α) :
    (ChangedWrap.new d).changed = false ∧
    (ChangedWrap.new d).data = d ∧
    (LabelWrap.new d).label = "" ∧
    (LabelWrap.new d).data = d ∧
    (Usage.new d : Usage U α).data = d :=
  ⟨rfl, rfl, rfl, rfl, rfl⟩

/-- Claim C5: for every stack value `s` of each of the six permutation types,
`s.with(Changed(true)).with(Changed(true))` yields the same observable flag
state (`get_changed()`) as `s.with(Changed(true))`. -/
theorem c5_with_changed_idempotent (α : Type) :
    (∀ s : One α,
      GetChanged.get_changed (One.withChanged (One.withChanged s ⟨true⟩) ⟨true⟩)
        = GetChanged.get_changed (One.withChanged s ⟨true⟩)) ∧
    (∀ s : Two α,
      GetChanged.get_changed (Two.withChanged (Two.withChanged s ⟨true⟩) ⟨true⟩)
        = GetChanged.get_changed (Two.withChanged s ⟨true⟩)) ∧
    (∀ s : Three α,
      GetChanged.get_changed (Three.withChanged (Three.withChanged s ⟨true⟩) ⟨true⟩)
        = GetChanged.get_changed (Three.withChanged s ⟨true⟩)) ∧
    (∀ s : Four α,
      GetChanged.get_changed (Four.withChanged (Four.withChanged s ⟨true⟩) ⟨true⟩)
        = GetChanged.get_changed (Four.withChanged s ⟨true⟩)) ∧
    (∀ s : Five α,
      GetChanged.get_changed (Five.withChanged (Five.withChanged s ⟨true⟩) ⟨true⟩)
        = GetChanged.get_changed (Five.withChanged s ⟨true⟩)) ∧
    (∀ s : Six α,
      GetChanged.get_changed (Six.withChanged (Six.withChanged s ⟨true⟩) ⟨true⟩)
        = GetChanged.get_changed (Six.withChanged s ⟨true⟩)) :=
  ⟨fun _ => rfl, fun _ => rfl, fun _ => rfl, fun _ => rfl, fun _ => rfl,
    fun _ => rfl⟩

/-- Claim C6: for every decorator type and every value of it, `deref` yields
the immediate inner value (the `data` field) — a read-only projection, no
mutable access being exposed through this protocol — and these single-level
dereferences compose: through the three layers of each permutation the
original payload is reached. -/
theorem c6_deref_transparent (α U : Type) (v : α) :
    (∀ (T : Type) (u : Usage U T), Deref.deref u = u.data) ∧
    (∀ (T : Type) (s : ChangedWrap T), Deref.deref s = s.data) ∧
    (∀ (T : Type) (s : LabelWrap T), Deref.deref s = s.data) ∧
    Deref.deref (Deref.deref (Deref.deref (One.construct v))) = v ∧
    Deref.deref (Deref.deref (Deref.deref (Two.construct v))) = v ∧
    Deref.deref (Deref.deref (Deref.deref (Three.construct v))) = v ∧
    Deref.deref (Deref.deref (Deref.deref (Four.construct v))) = v ∧
    Deref.deref (Deref.deref (Deref.deref (Five.construct v))) = v ∧
    Deref.deref (Deref.deref (Deref.deref (Six.construct v))) = v :=
  ⟨fun _ _ => rfl, fun _ _ => rfl, fun _ _ => rfl, rfl, rfl, rfl, rfl, rfl, rfl⟩

/-- Claim C7: `with` is a pure function from the old stack value and the
configuration to a new value: on each of the six permutations, the result of
`with(Changed(c))` and of `with(Label(l))` is an explicit functional rebuild —
a fresh value assembled from the retained components of the input, with only
the owning layer's state replaced — so the pre-call value, being never
written to, is unaffected. -/
theorem c7_with_functional_update (α : Type) (c : Bool) (l : String) :
    (∀ s : One α,
      One.withChanged s ⟨c⟩ = ⟨⟨⟨s.data.data.data, s.data.data.label⟩, c⟩⟩) ∧
    (∀ s : One α,
      One.withLabel s ⟨l⟩ = ⟨⟨⟨s.data.data.data, l⟩, s.data.changed⟩⟩) ∧
    (∀ s : Two α,
      Two.withChanged s ⟨c⟩ = ⟨⟨⟨s.data.data.data, c⟩, s.data.label⟩⟩) ∧
    (∀ s : Two α,
      Two.withLabel s ⟨l⟩ = ⟨⟨⟨s.data.data.data, s.data.data.changed⟩, l⟩⟩) ∧
    (∀ s : Three α, Three.withChanged s ⟨c⟩ = ⟨s.data, c⟩) ∧
    (∀ s : Three α,
      Three.withLabel s ⟨l⟩ = ⟨⟨⟨s.data.data.data, l⟩⟩, s.changed⟩) ∧
    (∀ s : Four α, Four.withChanged s ⟨c⟩ = ⟨s.data, c⟩) ∧
    (∀ s : Four α, Four.withLabel s ⟨l⟩ = ⟨⟨s.data.data, l⟩, s.changed⟩) ∧
    (∀ s : Five α,
      Five.withChanged s ⟨c⟩ = ⟨⟨⟨s.data.data.data, c⟩⟩, s.label⟩) ∧
    (∀ s : Five α, Five.withLabel s ⟨l⟩ = ⟨s.data, l⟩) ∧
    (∀ s : Six α, Six.withChanged s ⟨c⟩ = ⟨⟨s.data.data, c⟩, s.label⟩) ∧
    (∀ s : Six α, Six.withLabel s ⟨l⟩ = ⟨s.data, l⟩) :=
  ⟨fun _ => rfl, fun _ => rfl, fun _ => rfl, fun _ => rfl, fun _ => rfl,
    fun _ => rfl, fun _ => rfl, fun _ => rfl, fun _ => rfl, fun _ => rfl,
    fun _ => rfl, fun _ => rfl⟩

/-- Claim C8: every operation is a total function of this embedding (hence
pure and terminating), and its recursion structure is bounded by the Peano
depth index: each base-case instance (`Z`) performs no recursive call, each
recursive instance (`S I`) performs exactly one inner call at index `I`, and
the depth measure satisfies `depth Z = 0` and `depth (S I) = depth I + 1`, so
`S^k Z` reaches the `Z` base case in exactly `k` steps. -/
theorem c8_bounded_recursion :
    (∀ (T U : Type) (t : T),
      @Construct.construct T Z (Usage U T) _ t = Usage.new t) ∧
    (∀ (T : Type) (t : T),
      @Construct.construct T Z (LabelWrap T) _ t = LabelWrap.new t) ∧
    (∀ (T : Type) (t : T),
      @Construct.construct T Z (ChangedWrap T) _ t = ChangedWrap.new t) ∧
    (∀ (T I U N : Type) [Construct T I N] (t : T),
      @Construct.construct T (S I) (Usage U N) _ t
        = Usage.new (@Construct.construct T I N _ t)) ∧
    (∀ (T I N : Type) [Construct T I N] (t : T),
      @Construct.construct T (S I) (LabelWrap N) _ t
        = LabelWrap.new (@Construct.construct T I N _ t)) ∧
    (∀ (T I N : Type) [Construct T I N] (t : T),
      @Construct.construct T (S I) (ChangedWrap N) _ t
        = ChangedWrap.new (@Construct.construct T I N _ t)) ∧
    (∀ (T : Type) (s : ChangedWrap T) (t : Changed),
      @With.wth Changed Z (ChangedWrap T) _ s t
        = ChangedFlagTrait.set_changed s t.val) ∧
    (∀ (T : Type) (s : LabelWrap T) (t : Label),
      @With.wth Label Z (LabelWrap T) _ s t = LabelTrait.set_label s t.val) ∧
    (∀ (T I N : Type) [With T I N] (s : ChangedWrap N) (t : T),
      @With.wth T (S I) (ChangedWrap N) _ s t
        = ⟨@With.wth T I N _ s.data t, s.changed⟩) ∧
    (∀ (T I N : Type) [With T I N] (s : LabelWrap N) (t : T),
      @With.wth T (S I) (LabelWrap N) _ s t
        = ⟨@With.wth T I N _ s.data t, s.label⟩) ∧
    (∀ (T I U N : Type) [With T I N] (u : Usage U N) (t : T),
      @With.wth T (S I) (Usage U N) _ u t
        = ⟨@With.wth T I N _ u.data t⟩) ∧
    @IndexDepth.depth Z _ = 0 ∧
    (∀ (I : Type) [IndexDepth I],
      @IndexDepth.depth (S I) _ = @IndexDepth.depth I _ + 1) := by
  refine ⟨?_, ?_, ?_, ?_, ?_, ?_, ?_, ?_, ?_, ?_, ?_, ?_, ?_⟩ <;> intros <;> rfl

/-- Claim C9: `Usage` has only the recursive pass-through `With`
implementation, so every `with` call on a stack whose outer layer is `Usage`
delegates to the inner stack, never modifying the Usage layer itself: the
result is exactly the rewrap of the updated inner value, and the read-only
`type_id` accessor is unaffected. -/
theorem c9_usage_with_passthrough (T I U N : Type) [With T I N] [TypeIdOf U]
    (u : Usage U N) (t : T) :
    @With.wth T (S I) (Usage U N) _ u t
        = Usage.new (@With.wth T I N _ u.data t) ∧
    UsageTrait.type_id (@With.wth T (S I) (Usage U N) _ u t)
        = UsageTrait.type_id u :=
  ⟨rfl, rfl⟩

/-- Claim C10: `type_id()` depends only on the type parameter `U` of the
`Usage` layer, never on runtime data: any two values of `Usage U T` agree on
`type_id`, and any two stack values of the same permutation type — whatever
their payloads, flags, labels, or history of `with` updates — agree on
`type_id`. -/
theorem c10_type_id_data_independent (α U T : Type) [TypeIdOf U] :
    (∀ u₁ u₂ : Usage U T, UsageTrait.type_id u₁ = UsageTrait.type_id u₂) ∧
    (∀ s₁ s₂ : One α, GetTypeId.type_id s₁ = GetTypeId.type_id s₂) ∧
    (∀ s₁ s₂ : Two α, GetTypeId.type_id s₁ = GetTypeId.type_id s₂) ∧
    (∀ s₁ s₂ : Three α, GetTypeId.type_id s₁ = GetTypeId.type_id s₂) ∧
    (∀ s₁ s₂ : Four α, GetTypeId.type_id s₁ = GetTypeId.type_id s₂) ∧
    (∀ s₁ s₂ : Five α, GetTypeId.type_id s₁ = GetTypeId.type_id s₂) ∧
    (∀ s₁ s₂ : Six α, GetTypeId.type_id s₁ = GetTypeId.type_id s₂) :=
  ⟨fun _ _ => rfl, fun _ _ => rfl, fun _ _ => rfl, fun _ _ => rfl,
    fun _ _ => rfl, fun _ _ => rfl, fun _ _ => rfl⟩

end NestedNewtypes
